import Mathlib

/-!
Verification of the loss-function library in GANDLF/losses/regression.py.

Tensors are modelled by their shape and their row-major flattened data, with exact
rationals standing in for floating-point entries.  Fallible python code (KeyError,
IndexError, raised ValueError, the NameError of CCE_Generic) is modelled in
`Except String`.  Calls into the torch transcendental loss primitives (BCELoss,
BCEWithLogitsLoss, CrossEntropyLoss), which are external library code, are recorded
symbolically by their exact arguments; the rational-exact primitives L1Loss and
MSELoss are computed concretely.
-/

namespace GaNDLF

/-- A tensor: its shape (list of dimension sizes) and its data flattened in
row-major order.  Rational entries stand in for floats. -/
structure Tensor where
  shape : List ℕ
  data : List ℚ
deriving DecidableEq

/-- The value of the torch `Tensor.byte()` cast on an exact rational: truncation
toward zero followed by a wrap into the unsigned 8-bit range, matching CPU
semantics on small values (for example `(-1).byte() = 255`). -/
def toByte (q : ℚ) : ℚ :=
  (((if 0 ≤ q then ⌊q⌋ else -⌊-q⌋) % 256 : ℤ) : ℚ)

/-- Symbolic record of a call into one of the torch transcendental loss primitives
(external library code): the arguments are kept exactly, the numeric value being
outside the rational model. -/
inductive LossExpr
  | bce (o t : List ℚ)
  | bceWithLogits (o t : List ℚ)
  | crossEntropy (o t : List ℚ) (weights : Option (List ℚ))
deriving DecidableEq

/-- The reduction mode of a torch loss: "mean", "sum" or "none". -/
inductive Reduction
  | mean
  | sum
  | noneRed
deriving DecidableEq

/-- An entry of the params["loss_function"] dictionary: either some non-dict value,
or a dict that may or may not hold a "reduction" key. -/
inductive CfgEntry
  | nonDict
  | dict (reduction : Option Reduction)
deriving DecidableEq

/-- The params["loss_function"] sub-dictionary, restricted to the two keys this
module reads. -/
structure LossFunctionCfg where
  mse : Option CfgEntry
  l1 : Option CfgEntry
deriving DecidableEq

/-- The params["model"] sub-dictionary: the ordered class list and the class count. -/
structure ModelCfg where
  class_list : List ℚ
  num_classes : ℕ
deriving DecidableEq

/-- The params dictionary as read by this module: "weights" (None or the ordered
list of per-class weights), "loss_function", "scaling_factor" and "model". -/
structure Params where
  weights : Option (List ℚ)
  loss_function : LossFunctionCfg
  scaling_factor : ℚ
  model : ModelCfg
deriving DecidableEq

instance {ε α : Type _} [DecidableEq ε] [DecidableEq α] : DecidableEq (Except ε α) := fun a b =>
  match a, b with
  | Except.error e, Except.error f =>
      if h : e = f then Decidable.isTrue (congrArg Except.error h)
      else Decidable.isFalse (fun c => h (Except.error.inj c))
  | Except.error _, Except.ok _ => Decidable.isFalse (fun c => Except.noConfusion c)
  | Except.ok _, Except.error _ => Decidable.isFalse (fun c => Except.noConfusion c)
  | Except.ok x, Except.ok y =>
      if h : x = y then Decidable.isTrue (congrArg Except.ok h)
      else Decidable.isFalse (fun c => h (Except.ok.inj c))

/-- CEL: cross entropy loss with optional class weights.  A trailing singleton
target dimension is squeezed; when weights are given their count is validated
against out.shape[-1] and the per-class weight vector is passed on; the final
CrossEntropyLoss call is recorded symbolically. -/
def CEL (out target : Tensor) (params : Params) : Except String LossExpr := do
  let target :=
    if target.shape.length > 1 ∧ target.shape.getLast? = some 1 then
      Tensor.mk target.shape.dropLast target.data
    else target
  let weights ← match params.weights with
    | some ws => do
        let num_classes := ws.length
        let c ← match out.shape.getLast? with
          | some c => Except.ok c
          | Option.none => Except.error "IndexError: tuple index out of range"
        if c ≠ num_classes then
          Except.error ("Number of classes " ++ toString num_classes ++
            " does not match output shape " ++ toString c)
        else
          Except.ok (some ws)
    | Option.none => Except.ok (Option.none : Option (List ℚ))
  Except.ok (LossExpr.crossEntropy out.data target.data weights)

/-- CE_Logits: binary cross entropy with logits.  The target is rejected when some
element differs from its byte() cast; otherwise both tensors are flattened and the
BCEWithLogitsLoss call is recorded symbolically. -/
def CE_Logits (out target : Tensor) : Except String LossExpr :=
  if ∀ q ∈ target.data, toByte q = q then
    Except.ok (LossExpr.bceWithLogits out.data target.data)
  else
    Except.error "Target tensor must be binary (0 or 1)"

/-- CE: binary cross entropy on probabilities.  Same byte-cast guard as CE_Logits;
the float casts are identities in the rational model and the BCELoss call is
recorded symbolically. -/
def CE (out target : Tensor) : Except String LossExpr :=
  if ∀ q ∈ target.data, toByte q = q then
    Except.ok (LossExpr.bce out.data target.data)
  else
    Except.error "Target tensor must be binary (0 or 1)"

/-- Modelled from the spec: `one_hot` from GANDLF.utils, whose source is not part of
this slice, expands a target of shape [batch, *spatial] against the ordered class
list into shape [batch, num_classes, *spatial], channel i being the binarized mask
of class_list[i].  The subsequent cast to the dtype of out is an identity here. -/
def one_hot (target : Tensor) (class_list : List ℚ) : Tensor :=
  match target.shape with
  | [] => target
  | b :: rest =>
    Tensor.mk (b :: class_list.length :: rest)
      ((List.range b).flatMap fun j =>
        class_list.flatMap fun c =>
          ((target.data.drop (j * rest.prod)).take rest.prod).map
            fun v => if v = c then (1 : ℚ) else 0)

/-- The slice t[:, i, ...] of a tensor of shape [b, c, *rest]: for each batch index
the contiguous block of class i.  Errors, as python would with IndexError, when the
tensor has fewer than two dimensions or the index is out of range. -/
def sliceClass (t : Tensor) (i : ℕ) : Except String Tensor :=
  match t.shape with
  | b :: c :: rest =>
    if i < c then
      Except.ok (Tensor.mk (b :: rest)
        ((List.range b).flatMap fun j =>
          (t.data.drop (j * (c * rest.prod) + i * rest.prod)).take rest.prod))
    else Except.error "IndexError: index out of range"
  | _ => Except.error "IndexError: too few dimensions"

/-- L1: cast the label to float (identity here), scale it, flatten both tensors and
apply the torch L1Loss with the given reduction, computed exactly over ℚ.  Tensors of
unequal element counts are rejected; the claims never exercise broadcasting. -/
def L1 (output label : Tensor) (reduction : Reduction) (scaling_factor : ℚ) :
    Except String Tensor :=
  if output.data.length ≠ label.data.length then
    Except.error "RuntimeError: size mismatch"
  else
    let diffs := (output.data.zip label.data).map fun p => |p.1 - scaling_factor * p.2|
    match reduction with
    | Reduction.mean => Except.ok (Tensor.mk [] [diffs.sum / (diffs.length : ℚ)])
    | Reduction.sum => Except.ok (Tensor.mk [] [diffs.sum])
    | Reduction.noneRed => Except.ok (Tensor.mk [diffs.length] diffs)

/-- MSE: identical to L1 except for squaring in place of the absolute value. -/
def MSE (output label : Tensor) (reduction : Reduction) (scaling_factor : ℚ) :
    Except String Tensor :=
  if output.data.length ≠ label.data.length then
    Except.error "RuntimeError: size mismatch"
  else
    let diffs := (output.data.zip label.data).map fun p => (p.1 - scaling_factor * p.2) ^ 2
    match reduction with
    | Reduction.mean => Except.ok (Tensor.mk [] [diffs.sum / (diffs.length : ℚ)])
    | Reduction.sum => Except.ok (Tensor.mk [] [diffs.sum])
    | Reduction.noneRed => Except.ok (Tensor.mk [diffs.length] diffs)

/-- Addition of accumulated loss values, covering exactly the cases the aggregators
produce: equal shapes add elementwise and a scalar (shape []) broadcasts, mirroring
the python expression 0 + tensor. -/
def tadd (a b : Tensor) : Except String Tensor :=
  if a.shape = b.shape then
    Except.ok (Tensor.mk a.shape (a.data.zipWith (fun x y => x + y) b.data))
  else if a.shape = [] then
    Except.ok (Tensor.mk b.shape (b.data.map fun x => a.data.headD 0 + x))
  else if b.shape = [] then
    Except.ok (Tensor.mk a.shape (a.data.map fun x => x + b.data.headD 0))
  else Except.error "RuntimeError: shapes do not broadcast"

/-- The python integer 0 that initializes acc_mse_loss, as a scalar tensor. -/
def scalar0 : Tensor := Tensor.mk [] [0]

/-- Reading params["loss_function"][key]["reduction"] the way L1_loss does: a
missing key raises KeyError, a non-dict value raises TypeError, and a dict without
the "reduction" key raises KeyError. -/
def readReduction (e : Option CfgEntry) : Except String Reduction :=
  match e with
  | Option.none => Except.error "KeyError: loss key missing"
  | some CfgEntry.nonDict => Except.error "TypeError: value is not subscriptable"
  | some (CfgEntry.dict Option.none) => Except.error "KeyError: reduction"
  | some (CfgEntry.dict (some r)) => Except.ok r

/-- Reading the reduction the way MSE_loss does before branching: "mean" unless the
"mse" entry exists and is a dict, in which case its "reduction" value is read
(KeyError when the dict lacks it). -/
def mseReductionRead (lf : LossFunctionCfg) : Except String Reduction :=
  match lf.mse with
  | some (CfgEntry.dict (some r)) => Except.ok r
  | some (CfgEntry.dict Option.none) => Except.error "KeyError: reduction"
  | _ => Except.ok Reduction.mean

/-- One iteration of the multi-sample loop of L1_loss with a params dictionary:
slice out and target at class i, read the reduction from the "mse" entry (the key
the source reads in this branch) and apply L1 with the configured scaling factor. -/
def l1PerClass (inp target : Tensor) (p : Params) (i : ℕ) : Except String Tensor := do
  let o ← sliceClass inp i
  let t ← sliceClass target i
  let r ← readReduction p.loss_function.mse
  L1 o t r p.scaling_factor

/-- One iteration of the multi-sample loop of L1_loss without params: the call
L1(inp[:, i, ...], target[:, i, ...]) with the defaults "mean" and 1. -/
def l1PerClassDefault (inp target : Tensor) (i : ℕ) : Except String Tensor := do
  let o ← sliceClass inp i
  let t ← sliceClass target i
  L1 o t Reduction.mean 1

/-- One iteration of the multi-sample loop of MSE_loss: slice out and target at
class i and apply MSE with the given reduction and scaling factor. -/
def msePerClass (inp target : Tensor) (red : Reduction) (s : ℚ) (i : ℕ) :
    Except String Tensor := do
  let o ← sliceClass inp i
  let t ← sliceClass target i
  MSE o t red s

/-- L1_loss: a batch dimension of 1 gets a single whole-tensor L1 (reading the "l1"
reduction when params is given), otherwise a per-class loop over num_classes
channels, reading the "mse" reduction exactly as the source does in that branch;
the accumulated value is finally divided by num_classes (inp.shape[1] when params
is None). -/
def L1_loss (inp target : Tensor) (params : Option Params) : Except String Tensor := do
  match inp.shape with
  | [] => Except.error "IndexError: tuple index out of range"
  | b :: restShape => do
    let acc ←
      if b = 1 then
        match params with
        | some p => do
            let r ← readReduction p.loss_function.l1
            let m ← L1 inp target r p.scaling_factor
            tadd scalar0 m
        | Option.none => do
            let m ← L1 inp target Reduction.mean 1
            tadd scalar0 m
      else
        match params with
        | some p =>
            (List.range p.model.num_classes).foldlM
              (fun acc i => do
                let m ← l1PerClass inp target p i
                tadd acc m) scalar0
        | Option.none => do
            let c ← match restShape with
              | [] => Except.error "IndexError: tuple index out of range"
              | c :: _ => Except.ok c
            (List.range c).foldlM
              (fun acc i => do
                let m ← l1PerClassDefault inp target i
                tadd acc m) scalar0
    let k ← match params with
      | some p => Except.ok p.model.num_classes
      | Option.none =>
          match restShape with
          | [] => Except.error "IndexError: tuple index out of range"
          | c :: _ => Except.ok c
    Except.ok (Tensor.mk acc.shape (acc.data.map fun x => x / (k : ℚ)))

/-- MSE_loss: the reduction is read once, defensively, before branching; a batch
dimension of 1 gets a single whole-tensor MSE, otherwise a per-class loop (defaults
"mean" and 1 when params is None); the accumulated value is finally divided by
num_classes (inp.shape[1] when params is None). -/
def MSE_loss (inp target : Tensor) (params : Option Params) : Except String Tensor := do
  let red ← match params with
    | some p => mseReductionRead p.loss_function
    | Option.none => Except.ok Reduction.mean
  match inp.shape with
  | [] => Except.error "IndexError: tuple index out of range"
  | b :: restShape => do
    let acc ←
      if b = 1 then
        match params with
        | some p => do
            let m ← MSE inp target red p.scaling_factor
            tadd scalar0 m
        | Option.none => do
            let m ← MSE inp target Reduction.mean 1
            tadd scalar0 m
      else
        match params with
        | some p =>
            (List.range p.model.num_classes).foldlM
              (fun acc i => do
                let m ← msePerClass inp target red p.scaling_factor i
                tadd acc m) scalar0
        | Option.none => do
            let c ← match restShape with
              | [] => Except.error "IndexError: tuple index out of range"
              | c :: _ => Except.ok c
            (List.range c).foldlM
              (fun acc i => do
                let m ← msePerClass inp target Reduction.mean 1 i
                tadd acc m) scalar0
    let k ← match params with
      | some p => Except.ok p.model.num_classes
      | Option.none =>
          match restShape with
          | [] => Except.error "IndexError: tuple index out of range"
          | c :: _ => Except.ok c
    Except.ok (Tensor.mk acc.shape (acc.data.map fun x => x / (k : ℚ)))

/-- One iteration of the loop of CCE_Generic: slice out and the one-hot target at class
i, apply the pluggable scalar loss, and scale by weights[i] when weights are given
(an out-of-range index raising IndexError as python would). -/
def ccePerClass (out targetOH : Tensor) (weights : Option (List ℚ))
    (lossFn : Tensor → Tensor → Except String ℚ) (i : ℕ) : Except String ℚ := do
  let o ← sliceClass out i
  let t ← sliceClass targetOH i
  let curr ← lossFn o t
  match weights with
  | some ws =>
      match ws[i]? with
      | some w => Except.ok (curr * w)
      | Option.none => Except.error "IndexError: list index out of range"
  | Option.none => Except.ok curr

/-- CCE_Generic: one-hot the target against class_list, loop over the classes
accumulating the (optionally weighted) per-class losses; when weights is None the
source then executes `total_loss = torch.mean(total_loss)` with total_loss never
having been assigned, which raises NameError.  The pluggable CCE_Type callable is a
parameter returning the scalar loss of a class slice. -/
def CCE_Generic (out target : Tensor) (params : Params)
    (CCE_Type : Tensor → Tensor → Except String ℚ) : Except String ℚ := do
  let targetOH := one_hot target params.model.class_list
  let acc ← (List.range params.model.class_list.length).foldlM
    (fun acc i => do
      let curr ← ccePerClass out targetOH params.weights CCE_Type i
      Except.ok (acc + curr)) (0 : ℚ)
  match params.weights with
  | Option.none => Except.error "NameError: total_loss is not defined"
  | some _ => Except.ok acc

theorem tadd_scalar (a q : ℚ) :
    tadd (Tensor.mk [] [a]) (Tensor.mk [] [q]) = Except.ok (Tensor.mk [] [a + q]) := by
  simp [tadd]

/-- Folding Except-valued per-class scalar computations with pure addition
accumulates their sum. -/
theorem foldlM_add_rat (f : ℕ → Except String ℚ) (g : ℕ → ℚ) :
    ∀ (l : List ℕ), (∀ i ∈ l, f i = Except.ok (g i)) → ∀ (a : ℚ),
      l.foldlM (fun acc i => do
        let c ← f i
        Except.ok (acc + c)) a = Except.ok (a + (l.map g).sum) := by
  intro l
  induction l with
  | nil => intro _ a; simp only [List.foldlM_nil, List.map_nil, List.sum_nil, add_zero]; rfl
  | cons x xs ih =>
      intro h a
      have hx : f x = Except.ok (g x) := h x (List.mem_cons_self x xs)
      have hxs : ∀ i ∈ xs, f i = Except.ok (g i) := fun i hi =>
        h i (List.mem_cons_of_mem x hi)
      rw [List.foldlM_cons, hx]
      exact (ih hxs (a + g x)).trans (by rw [List.map_cons, List.sum_cons, add_assoc])

/-- Folding Except-valued per-class scalar loss tensors with tadd accumulates the
sum of the scalars. -/
theorem foldlM_tadd_scalar (f : ℕ → Except String Tensor) (g : ℕ → ℚ) :
    ∀ (l : List ℕ), (∀ i ∈ l, f i = Except.ok (Tensor.mk [] [g i])) → ∀ (a : ℚ),
      l.foldlM (fun acc i => do
        let m ← f i
        tadd acc m) (Tensor.mk [] [a]) = Except.ok (Tensor.mk [] [a + (l.map g).sum]) := by
  intro l
  induction l with
  | nil => intro _ a; simp only [List.foldlM_nil, List.map_nil, List.sum_nil, add_zero]; rfl
  | cons x xs ih =>
      intro h a
      have hx : f x = Except.ok (Tensor.mk [] [g x]) := h x (List.mem_cons_self x xs)
      have hxs : ∀ i ∈ xs, f i = Except.ok (Tensor.mk [] [g i]) := fun i hi =>
        h i (List.mem_cons_of_mem x hi)
      rw [List.foldlM_cons, hx]
      have hstep : tadd (Tensor.mk [] [a]) (Tensor.mk [] [g x])
          = Except.ok (Tensor.mk [] [a + g x]) := tadd_scalar a (g x)
      show (tadd (Tensor.mk [] [a]) (Tensor.mk [] [g x]) >>= fun acc =>
        xs.foldlM (fun acc i => do
          let m ← f i
          tadd acc m) acc) = _
      rw [hstep]
      exact (ih hxs (a + g x)).trans (by rw [List.map_cons, List.sum_cons, add_assoc])

theorem ok_bind {e a b : Type _} (x : a) (k : a → Except e b) :
    (Except.ok x >>= k) = k x := rfl

theorem error_bind {e a b : Type _} (err : e) (k : a → Except e b) :
    ((Except.error err : Except e a) >>= k) = Except.error err := rfl

/-- C1: whenever params["weights"] is None and the per-class loop itself runs to
completion, CCE_Generic fails with the undefined-variable NameError on total_loss
instead of returning a per-class mean. -/
theorem C1_cce_weights_none_raises_nameerror
    (out target : Tensor) (params : Params)
    (CCE_Type : Tensor → Tensor → Except String ℚ)
    (hw : params.weights = Option.none) (g : ℕ → ℚ)
    (hloop : ∀ i ∈ List.range params.model.class_list.length,
      ccePerClass out (one_hot target params.model.class_list) params.weights CCE_Type i
        = Except.ok (g i)) :
    CCE_Generic out target params CCE_Type
      = Except.error "NameError: total_loss is not defined" := by
  simp only [CCE_Generic]
  rw [foldlM_add_rat
    (ccePerClass out (one_hot target params.model.class_list) params.weights CCE_Type)
    g (List.range params.model.class_list.length) hloop 0]
  rw [ok_bind, hw]

/-- C1 witness: a concrete two-class call with weights None and a loss callable
that succeeds on every class ends in the NameError. -/
theorem C1_witness :
    CCE_Generic (Tensor.mk [1, 2] [1, 0]) (Tensor.mk [1] [0])
      (Params.mk Option.none (LossFunctionCfg.mk Option.none Option.none) 1
        (ModelCfg.mk [0, 1] 2))
      (fun _ _ => Except.ok 0)
      = Except.error "NameError: total_loss is not defined" :=
  C1_cce_weights_none_raises_nameerror _ _ _ _ rfl (fun _ => 0) (by decide)

/-- C2 (code bug evaluation): the binary-target guard target.byte() == target
accepts the non-binary value 2 (2 is its own byte cast), so CE and CE_Logits
compute a loss on such a target instead of raising the documented error. -/
theorem C2_ce_guard_accepts_two :
    CE (Tensor.mk [1] [1/2]) (Tensor.mk [1] [2])
        = Except.ok (LossExpr.bce [1/2] [2])
      ∧ CE_Logits (Tensor.mk [1] [1/2]) (Tensor.mk [1] [2])
        = Except.ok (LossExpr.bceWithLogits [1/2] [2]) := by
  constructor <;> norm_num [CE, CE_Logits, toByte]

/-- C3: with weights present, CCE_Generic returns the plain sum across classes of
weights[i] times the per-class loss, with no division by the class count. -/
theorem C3_cce_weighted_sum
    (out target : Tensor) (params : Params)
    (CCE_Type : Tensor → Tensor → Except String ℚ)
    (ws : List ℚ) (hw : params.weights = some ws)
    (hlen : params.model.class_list.length ≤ ws.length)
    (l : ℕ → ℚ)
    (hloop : ∀ i ∈ List.range params.model.class_list.length,
      (do
        let o ← sliceClass out i
        let t ← sliceClass (one_hot target params.model.class_list) i
        CCE_Type o t) = Except.ok (l i)) :
    CCE_Generic out target params CCE_Type
      = Except.ok (((List.range params.model.class_list.length).map
          fun i => l i * ws.getD i 0).sum) := by
  have hcc : ∀ i ∈ List.range params.model.class_list.length,
      ccePerClass out (one_hot target params.model.class_list) params.weights CCE_Type i
        = Except.ok (l i * ws.getD i 0) := by
    intro i hi
    have hi2 : i < ws.length := lt_of_lt_of_le (List.mem_range.mp hi) hlen
    have hraw := hloop i hi
    unfold ccePerClass
    rw [hw]
    cases hs1 : sliceClass out i with
    | error e =>
        rw [hs1, error_bind] at hraw
        exact Except.noConfusion hraw
    | ok o =>
        rw [hs1] at hraw
        simp only [ok_bind] at hraw ⊢
        cases hs2 : sliceClass (one_hot target params.model.class_list) i with
        | error e =>
            rw [hs2, error_bind] at hraw
            exact Except.noConfusion hraw
        | ok t =>
            rw [hs2] at hraw
            simp only [ok_bind] at hraw ⊢
            rw [hraw]
            simp only [ok_bind]
            rw [List.getElem?_eq_getElem hi2]
            simp [List.getD_eq_getElem?_getD, List.getElem?_eq_getElem hi2]
  simp only [CCE_Generic]
  rw [foldlM_add_rat
    (ccePerClass out (one_hot target params.model.class_list) params.weights CCE_Type)
    (fun i => l i * ws.getD i 0) (List.range params.model.class_list.length) hcc 0]
  rw [ok_bind, hw, zero_add]

/-- C3 witness: two classes with weights [1/2, 2] and per-class losses 1 and 3
yield exactly 1*(1/2) + 3*2. -/
theorem C3_witness :
    CCE_Generic (Tensor.mk [1, 2] [1, 3]) (Tensor.mk [1] [0])
      (Params.mk (some [1/2, 2]) (LossFunctionCfg.mk Option.none Option.none) 1
        (ModelCfg.mk [0, 1] 2))
      (fun o _ => Except.ok o.data.sum)
      = Except.ok (13/2) := by
  have h := C3_cce_weighted_sum (Tensor.mk [1, 2] [1, 3]) (Tensor.mk [1] [0])
    (Params.mk (some [1/2, 2]) (LossFunctionCfg.mk Option.none Option.none) 1
      (ModelCfg.mk [0, 1] 2))
    (fun o _ => Except.ok o.data.sum) [1/2, 2] rfl (by decide)
    (fun i => if i = 0 then 1 else 3)
    (by
      intro i hi
      fin_cases hi <;>
        norm_num [sliceClass, one_hot, ok_bind, List.take, List.drop,
          List.range_succ, List.flatMap])
  rw [h]
  norm_num [List.range_succ]

/-- Evaluation of L1_loss in the multi-sample branch with a params dictionary:
the per-class scalar losses are summed and divided by num_classes. -/
theorem L1_loss_some_multiclass
    (inp target : Tensor) (p : Params) (b : ℕ) (restShape : List ℕ)
    (hs : inp.shape = b :: restShape) (hb : b ≠ 1) (g : ℕ → ℚ)
    (hl1 : ∀ i ∈ List.range p.model.num_classes,
        l1PerClass inp target p i = Except.ok (Tensor.mk [] [g i])) :
    L1_loss inp target (some p)
      = Except.ok (Tensor.mk []
          [((List.range p.model.num_classes).map g).sum / (p.model.num_classes : ℚ)]) := by
  obtain ⟨shape, data⟩ := inp
  replace hs : shape = b :: restShape := hs
  subst hs
  simp only [L1_loss, scalar0]
  rw [if_neg hb]
  rw [foldlM_tadd_scalar (l1PerClass (Tensor.mk (b :: restShape) data) target p) g
    (List.range p.model.num_classes) hl1 0]
  simp [ok_bind, zero_add]

/-- Evaluation of MSE_loss in the multi-sample branch with a params dictionary. -/
theorem MSE_loss_some_multiclass
    (inp target : Tensor) (p : Params) (b : ℕ) (restShape : List ℕ)
    (hs : inp.shape = b :: restShape) (hb : b ≠ 1)
    (red : Reduction) (hred : mseReductionRead p.loss_function = Except.ok red)
    (h : ℕ → ℚ)
    (hmse : ∀ i ∈ List.range p.model.num_classes,
        msePerClass inp target red p.scaling_factor i = Except.ok (Tensor.mk [] [h i])) :
    MSE_loss inp target (some p)
      = Except.ok (Tensor.mk []
          [((List.range p.model.num_classes).map h).sum / (p.model.num_classes : ℚ)]) := by
  obtain ⟨shape, data⟩ := inp
  replace hs : shape = b :: restShape := hs
  subst hs
  simp only [MSE_loss, scalar0]
  rw [hred, ok_bind, if_neg hb]
  rw [foldlM_tadd_scalar (msePerClass (Tensor.mk (b :: restShape) data) target red
    p.scaling_factor) h (List.range p.model.num_classes) hmse 0]
  simp [ok_bind, zero_add]

/-- Evaluation of L1_loss in the batch-size-1 branch with a params dictionary: a
single whole-tensor L1 (reduction read from the "l1" entry) divided by num_classes. -/
theorem L1_loss_some_batch1
    (inp target : Tensor) (p : Params) (restShape : List ℕ)
    (hs : inp.shape = 1 :: restShape)
    (r : Reduction) (hr : readReduction p.loss_function.l1 = Except.ok r)
    (v : ℚ) (hL1 : L1 inp target r p.scaling_factor = Except.ok (Tensor.mk [] [v])) :
    L1_loss inp target (some p)
      = Except.ok (Tensor.mk [] [v / (p.model.num_classes : ℚ)]) := by
  obtain ⟨shape, data⟩ := inp
  replace hs : shape = 1 :: restShape := hs
  subst hs
  simp only [L1_loss, scalar0]
  rw [if_pos trivial, hr, ok_bind, hL1, ok_bind, tadd_scalar 0 v]
  simp [ok_bind, zero_add]

/-- Evaluation of MSE_loss in the batch-size-1 branch with a params dictionary. -/
theorem MSE_loss_some_batch1
    (inp target : Tensor) (p : Params) (restShape : List ℕ)
    (hs : inp.shape = 1 :: restShape)
    (red : Reduction) (hred : mseReductionRead p.loss_function = Except.ok red)
    (v : ℚ) (hMSE : MSE inp target red p.scaling_factor = Except.ok (Tensor.mk [] [v])) :
    MSE_loss inp target (some p)
      = Except.ok (Tensor.mk [] [v / (p.model.num_classes : ℚ)]) := by
  obtain ⟨shape, data⟩ := inp
  replace hs : shape = 1 :: restShape := hs
  subst hs
  simp only [MSE_loss, scalar0]
  rw [hred, ok_bind, if_pos trivial, hMSE, ok_bind, tadd_scalar 0 v]
  simp [ok_bind, zero_add]

/-- Evaluation of L1_loss in the multi-sample branch without params: the loop runs
over inp.shape[1] channels with the default reduction and scaling factor, and the
sum is divided by inp.shape[1]. -/
theorem L1_loss_none_multiclass
    (inp target : Tensor) (b c : ℕ) (rest : List ℕ)
    (hs : inp.shape = b :: c :: rest) (hb : b ≠ 1) (g : ℕ → ℚ)
    (hl1 : ∀ i ∈ List.range c,
        l1PerClassDefault inp target i = Except.ok (Tensor.mk [] [g i])) :
    L1_loss inp target Option.none
      = Except.ok (Tensor.mk [] [((List.range c).map g).sum / (c : ℚ)]) := by
  obtain ⟨shape, data⟩ := inp
  replace hs : shape = b :: c :: rest := hs
  subst hs
  simp only [L1_loss, scalar0]
  rw [if_neg hb]
  simp only [ok_bind]
  rw [foldlM_tadd_scalar (l1PerClassDefault (Tensor.mk (b :: c :: rest) data) target) g
    (List.range c) hl1 0]
  simp [ok_bind, zero_add]

/-- Evaluation of MSE_loss in the multi-sample branch without params. -/
theorem MSE_loss_none_multiclass
    (inp target : Tensor) (b c : ℕ) (rest : List ℕ)
    (hs : inp.shape = b :: c :: rest) (hb : b ≠ 1) (h : ℕ → ℚ)
    (hmse : ∀ i ∈ List.range c,
        msePerClass inp target Reduction.mean 1 i = Except.ok (Tensor.mk [] [h i])) :
    MSE_loss inp target Option.none
      = Except.ok (Tensor.mk [] [((List.range c).map h).sum / (c : ℚ)]) := by
  obtain ⟨shape, data⟩ := inp
  replace hs : shape = b :: c :: rest := hs
  subst hs
  simp only [MSE_loss, scalar0]
  rw [if_neg hb]
  simp only [ok_bind]
  rw [foldlM_tadd_scalar (msePerClass (Tensor.mk (b :: c :: rest) data) target
    Reduction.mean 1) h (List.range c) hmse 0]
  simp [ok_bind, zero_add]

/-- C4: with a batch dimension larger than 1 and a params dictionary, L1_loss and
MSE_loss return the sum over class indices 0..num_classes-1 of the per-class
primitive loss of the class slices, divided exactly once by
params["model"]["num_classes"]. -/
theorem C4_multiclass_sum_divided_once
    (inp target : Tensor) (p : Params) (b : ℕ) (restShape : List ℕ)
    (hs : inp.shape = b :: restShape) (hb : 1 < b) (_hn : 0 < p.model.num_classes)
    (red : Reduction) (hred : mseReductionRead p.loss_function = Except.ok red)
    (g h : ℕ → ℚ)
    (hl1 : ∀ i ∈ List.range p.model.num_classes,
        l1PerClass inp target p i = Except.ok (Tensor.mk [] [g i]))
    (hmse : ∀ i ∈ List.range p.model.num_classes,
        msePerClass inp target red p.scaling_factor i = Except.ok (Tensor.mk [] [h i])) :
    L1_loss inp target (some p)
        = Except.ok (Tensor.mk []
            [((List.range p.model.num_classes).map g).sum / (p.model.num_classes : ℚ)])
      ∧ MSE_loss inp target (some p)
        = Except.ok (Tensor.mk []
            [((List.range p.model.num_classes).map h).sum / (p.model.num_classes : ℚ)]) :=
  ⟨L1_loss_some_multiclass inp target p b restShape hs (by omega) g hl1,
   MSE_loss_some_multiclass inp target p b restShape hs (by omega) red hred h hmse⟩

/-- C4 witness: identical 2-batch 2-class tensors give per-class losses 0 and a
final value of 0 under both aggregators. -/
theorem C4_witness :
    L1_loss (Tensor.mk [2, 2] [1, 2, 3, 4]) (Tensor.mk [2, 2] [1, 2, 3, 4])
        (some (Params.mk Option.none
          (LossFunctionCfg.mk (some (CfgEntry.dict (some Reduction.mean))) Option.none) 1
          (ModelCfg.mk [0, 1] 2)))
        = Except.ok (Tensor.mk [] [0])
      ∧ MSE_loss (Tensor.mk [2, 2] [1, 2, 3, 4]) (Tensor.mk [2, 2] [1, 2, 3, 4])
        (some (Params.mk Option.none
          (LossFunctionCfg.mk (some (CfgEntry.dict (some Reduction.mean))) Option.none) 1
          (ModelCfg.mk [0, 1] 2)))
        = Except.ok (Tensor.mk [] [0]) := by
  have h := C4_multiclass_sum_divided_once
    (Tensor.mk [2, 2] [1, 2, 3, 4]) (Tensor.mk [2, 2] [1, 2, 3, 4])
    (Params.mk Option.none
      (LossFunctionCfg.mk (some (CfgEntry.dict (some Reduction.mean))) Option.none) 1
      (ModelCfg.mk [0, 1] 2))
    2 [2] rfl (by norm_num) (by norm_num) Reduction.mean rfl
    (fun _ => 0) (fun _ => 0)
    (by
      intro i hi
      fin_cases hi <;>
        norm_num [l1PerClass, readReduction, L1, sliceClass, ok_bind,
          List.take, List.drop, List.zip, List.zipWith, List.range_succ, List.flatMap])
    (by
      intro i hi
      fin_cases hi <;>
        norm_num [msePerClass, MSE, sliceClass, ok_bind,
          List.take, List.drop, List.zip, List.zipWith, List.range_succ, List.flatMap])
  constructor
  · rw [h.1]
    norm_num [List.range_succ]
  · rw [h.2]
    norm_num [List.range_succ]

/-- C5: for inputs of shape [2,3,4,4] with num_classes 3, reduction "mean" and
scaling factor 1, MSE_loss returns the mean of the three per-class MSE values,
the division by 3 being the second division beyond the per-element mean inside each class. -/
theorem C5_mse_shape_2_3_4_4
    (inp target : Tensor) (p : Params)
    (hsi : inp.shape = [2, 3, 4, 4]) (hn : p.model.num_classes = 3)
    (hred : mseReductionRead p.loss_function = Except.ok Reduction.mean)
    (hsf : p.scaling_factor = 1) (h : ℕ → ℚ)
    (hmse : ∀ i ∈ List.range 3,
        msePerClass inp target Reduction.mean 1 i = Except.ok (Tensor.mk [] [h i])) :
    MSE_loss inp target (some p)
      = Except.ok (Tensor.mk [] [(h 0 + h 1 + h 2) / 3]) := by
  have e := MSE_loss_some_multiclass inp target p 2 [3, 4, 4] hsi (by omega)
    Reduction.mean hred h (by rw [hn, hsf]; exact hmse)
  rw [e, hn]
  norm_num [List.range_succ]
  ring_nf

/-- C5 witness: all-zero tensors of shape [2,3,4,4] give per-class MSE 0 and a
final loss of 0. -/
theorem C5_witness :
    MSE_loss (Tensor.mk [2, 3, 4, 4] (List.replicate 96 0))
      (Tensor.mk [2, 3, 4, 4] (List.replicate 96 0))
      (some (Params.mk Option.none
        (LossFunctionCfg.mk (some (CfgEntry.dict (some Reduction.mean))) Option.none) 1
        (ModelCfg.mk [0, 1, 2] 3)))
      = Except.ok (Tensor.mk [] [0]) := by
  have h := C5_mse_shape_2_3_4_4
    (Tensor.mk [2, 3, 4, 4] (List.replicate 96 0))
    (Tensor.mk [2, 3, 4, 4] (List.replicate 96 0))
    (Params.mk Option.none
      (LossFunctionCfg.mk (some (CfgEntry.dict (some Reduction.mean))) Option.none) 1
      (ModelCfg.mk [0, 1, 2] 3))
    rfl rfl rfl rfl (fun _ => 0)
    (by
      intro i hi
      fin_cases hi <;>
        norm_num [msePerClass, MSE, sliceClass, ok_bind, List.replicate,
          List.take, List.drop, List.zip, List.zipWith, List.range_succ, List.flatMap])
  rw [h]
  norm_num

/-- C6: a batch dimension of 1 short-circuits the per-class loop: L1_loss and
MSE_loss apply the primitive exactly once to the whole tensor, even with several
class channels, and divide that single value by num_classes. -/
theorem C6_batch1_whole_tensor
    (inp target : Tensor) (p : Params) (restShape : List ℕ)
    (hs : inp.shape = 1 :: restShape) (_hn : 0 < p.model.num_classes)
    (r : Reduction) (hr : readReduction p.loss_function.l1 = Except.ok r)
    (red : Reduction) (hred : mseReductionRead p.loss_function = Except.ok red)
    (v w : ℚ)
    (hL1 : L1 inp target r p.scaling_factor = Except.ok (Tensor.mk [] [v]))
    (hMSE : MSE inp target red p.scaling_factor = Except.ok (Tensor.mk [] [w])) :
    L1_loss inp target (some p)
        = Except.ok (Tensor.mk [] [v / (p.model.num_classes : ℚ)])
      ∧ MSE_loss inp target (some p)
        = Except.ok (Tensor.mk [] [w / (p.model.num_classes : ℚ)]) :=
  ⟨L1_loss_some_batch1 inp target p restShape hs r hr v hL1,
   MSE_loss_some_batch1 inp target p restShape hs red hred w hMSE⟩

/-- C6 witness: an identical pair of shape [1,3] tensors (batch 1, three class
channels) gives whole-tensor losses 0, divided by num_classes 3. -/
theorem C6_witness :
    L1_loss (Tensor.mk [1, 3] [1, 2, 3]) (Tensor.mk [1, 3] [1, 2, 3])
        (some (Params.mk Option.none
          (LossFunctionCfg.mk (some (CfgEntry.dict (some Reduction.mean)))
            (some (CfgEntry.dict (some Reduction.mean)))) 1
          (ModelCfg.mk [0, 1, 2] 3)))
        = Except.ok (Tensor.mk [] [0])
      ∧ MSE_loss (Tensor.mk [1, 3] [1, 2, 3]) (Tensor.mk [1, 3] [1, 2, 3])
        (some (Params.mk Option.none
          (LossFunctionCfg.mk (some (CfgEntry.dict (some Reduction.mean)))
            (some (CfgEntry.dict (some Reduction.mean)))) 1
          (ModelCfg.mk [0, 1, 2] 3)))
        = Except.ok (Tensor.mk [] [0]) := by
  have h := C6_batch1_whole_tensor
    (Tensor.mk [1, 3] [1, 2, 3]) (Tensor.mk [1, 3] [1, 2, 3])
    (Params.mk Option.none
      (LossFunctionCfg.mk (some (CfgEntry.dict (some Reduction.mean)))
        (some (CfgEntry.dict (some Reduction.mean)))) 1
      (ModelCfg.mk [0, 1, 2] 3))
    [3] rfl (by norm_num) Reduction.mean rfl Reduction.mean rfl 0 0
    (by norm_num [L1, List.zip, List.zipWith])
    (by norm_num [MSE, List.zip, List.zipWith])
  constructor
  · rw [h.1]
    norm_num
  · rw [h.2]
    norm_num

/-- C7: CEL with a weights mapping whose length differs from out.shape[-1] fails,
before any loss is computed, with a message stating the expected and actual counts;
with matching length no such error occurs and the loss call is reached. -/
theorem C7_cel_weight_count_validation
    (out target : Tensor) (p : Params) (ws : List ℚ) (hw : p.weights = some ws)
    (c : ℕ) (hc : out.shape.getLast? = some c) :
    (c ≠ ws.length →
        CEL out target p = Except.error ("Number of classes " ++ toString ws.length
          ++ " does not match output shape " ++ toString c))
      ∧ (c = ws.length →
        CEL out target p
          = Except.ok (LossExpr.crossEntropy out.data target.data (some ws))) := by
  constructor
  · intro hne
    simp only [CEL]
    rw [hw, hc]
    simp only [ok_bind]
    rw [if_pos hne]
    simp only [error_bind]
  · intro heq
    simp only [CEL]
    rw [hw, hc]
    simp only [ok_bind]
    rw [if_neg (not_ne_iff.mpr heq)]
    simp [ok_bind, apply_ite Tensor.data]

/-- C7 witness: two weights against an output whose last dimension is 3 produce the
mismatch error naming both counts. -/
theorem C7_witness :
    CEL (Tensor.mk [2, 3] [0, 0, 0, 0, 0, 0]) (Tensor.mk [2] [0, 0])
      (Params.mk (some [1, 2]) (LossFunctionCfg.mk Option.none Option.none) 1
        (ModelCfg.mk [] 0))
      = Except.error "Number of classes 2 does not match output shape 3" := by
  have h := (C7_cel_weight_count_validation
    (Tensor.mk [2, 3] [0, 0, 0, 0, 0, 0]) (Tensor.mk [2] [0, 0])
    (Params.mk (some [1, 2]) (LossFunctionCfg.mk Option.none Option.none) 1
      (ModelCfg.mk [] 0))
    [1, 2] rfl 3 rfl).1 (by decide)
  exact h.trans (congrArg Except.error (by decide))

/-- C8: with params None and a batch larger than 1, L1_loss and MSE_loss loop over
inp.shape[1] channels with reduction "mean" and scaling factor 1, and divide the
accumulated sum by inp.shape[1]. -/
theorem C8_params_none_defaults
    (inp target : Tensor) (b c : ℕ) (rest : List ℕ)
    (hs : inp.shape = b :: c :: rest) (hb : 1 < b) (_hc : 0 < c)
    (g h : ℕ → ℚ)
    (hl1 : ∀ i ∈ List.range c,
        l1PerClassDefault inp target i = Except.ok (Tensor.mk [] [g i]))
    (hmse : ∀ i ∈ List.range c,
        msePerClass inp target Reduction.mean 1 i = Except.ok (Tensor.mk [] [h i])) :
    L1_loss inp target Option.none
        = Except.ok (Tensor.mk [] [((List.range c).map g).sum / (c : ℚ)])
      ∧ MSE_loss inp target Option.none
        = Except.ok (Tensor.mk [] [((List.range c).map h).sum / (c : ℚ)]) :=
  ⟨L1_loss_none_multiclass inp target b c rest hs (by omega) g hl1,
   MSE_loss_none_multiclass inp target b c rest hs (by omega) h hmse⟩

/-- C8 witness: identical tensors of shape [2,2] with params None give 0 under both
aggregators, the divisor being the channel count 2. -/
theorem C8_witness :
    L1_loss (Tensor.mk [2, 2] [1, 2, 3, 4]) (Tensor.mk [2, 2] [1, 2, 3, 4]) Option.none
        = Except.ok (Tensor.mk [] [0])
      ∧ MSE_loss (Tensor.mk [2, 2] [1, 2, 3, 4]) (Tensor.mk [2, 2] [1, 2, 3, 4]) Option.none
        = Except.ok (Tensor.mk [] [0]) := by
  have h := C8_params_none_defaults
    (Tensor.mk [2, 2] [1, 2, 3, 4]) (Tensor.mk [2, 2] [1, 2, 3, 4])
    2 2 [] rfl (by norm_num) (by norm_num) (fun _ => 0) (fun _ => 0)
    (by
      intro i hi
      fin_cases hi <;>
        norm_num [l1PerClassDefault, L1, sliceClass, ok_bind,
          List.take, List.drop, List.zip, List.zipWith, List.range_succ, List.flatMap])
    (by
      intro i hi
      fin_cases hi <;>
        norm_num [msePerClass, MSE, sliceClass, ok_bind,
          List.take, List.drop, List.zip, List.zipWith, List.range_succ, List.flatMap])
  constructor
  · rw [h.1]
    norm_num [List.range_succ]
  · rw [h.2]
    norm_num [List.range_succ]

/-- C9: in the multi-sample branch L1_loss reads its reduction from the "mse"
configuration entry, so a configuration defining only "l1" makes that branch fail
with the missing-key error, while the batch-size-1 branch of the very same
configuration succeeds because it reads the "l1" entry. -/
theorem C9_l1_loss_reads_mse_key
    (inp target inp1 target1 : Tensor) (p : Params)
    (hmse : p.loss_function.mse = Option.none)
    (r : Reduction) (hl1cfg : readReduction p.loss_function.l1 = Except.ok r)
    (b : ℕ) (restShape : List ℕ) (hs : inp.shape = b :: restShape) (hb : 1 < b)
    (hn : 0 < p.model.num_classes)
    (o0 t0 : Tensor) (ho : sliceClass inp 0 = Except.ok o0)
    (ht : sliceClass target 0 = Except.ok t0)
    (restShape1 : List ℕ) (hs1 : inp1.shape = 1 :: restShape1)
    (v : ℚ) (hL1 : L1 inp1 target1 r p.scaling_factor = Except.ok (Tensor.mk [] [v])) :
    L1_loss inp target (some p) = Except.error "KeyError: loss key missing"
      ∧ L1_loss inp1 target1 (some p)
        = Except.ok (Tensor.mk [] [v / (p.model.num_classes : ℚ)]) := by
  constructor
  · obtain ⟨shape, data⟩ := inp
    replace hs : shape = b :: restShape := hs
    subst hs
    simp only [L1_loss, scalar0]
    rw [if_neg (by omega : ¬ b = 1)]
    obtain ⟨n, hn2⟩ : ∃ n, p.model.num_classes = n + 1 :=
      ⟨p.model.num_classes - 1, by omega⟩
    rw [hn2, List.range_succ_eq_map]
    simp only [List.foldlM_cons, l1PerClass]
    rw [ho, ok_bind, ht, ok_bind, hmse]
    simp only [readReduction, error_bind]
  · exact L1_loss_some_batch1 inp1 target1 p restShape1 hs1 r hl1cfg v hL1

/-- C9 witness: a configuration with only the "l1" entry makes the 2-batch call
fail on the missing "mse" key while the batch-1 call succeeds. -/
theorem C9_witness :
    L1_loss (Tensor.mk [2, 2] [0, 0, 0, 0]) (Tensor.mk [2, 2] [0, 0, 0, 0])
        (some (Params.mk Option.none
          (LossFunctionCfg.mk Option.none (some (CfgEntry.dict (some Reduction.mean)))) 1
          (ModelCfg.mk [0, 1] 2)))
        = Except.error "KeyError: loss key missing"
      ∧ L1_loss (Tensor.mk [1, 2] [0, 0]) (Tensor.mk [1, 2] [0, 0])
        (some (Params.mk Option.none
          (LossFunctionCfg.mk Option.none (some (CfgEntry.dict (some Reduction.mean)))) 1
          (ModelCfg.mk [0, 1] 2)))
        = Except.ok (Tensor.mk [] [0]) := by
  have h := C9_l1_loss_reads_mse_key
    (Tensor.mk [2, 2] [0, 0, 0, 0]) (Tensor.mk [2, 2] [0, 0, 0, 0])
    (Tensor.mk [1, 2] [0, 0]) (Tensor.mk [1, 2] [0, 0])
    (Params.mk Option.none
      (LossFunctionCfg.mk Option.none (some (CfgEntry.dict (some Reduction.mean)))) 1
      (ModelCfg.mk [0, 1] 2))
    rfl Reduction.mean rfl 2 [2] rfl (by norm_num) (by norm_num)
    (Tensor.mk [2] [0, 0]) (Tensor.mk [2] [0, 0])
    (by norm_num [sliceClass, List.take, List.drop, List.range_succ, List.flatMap])
    (by norm_num [sliceClass, List.take, List.drop, List.range_succ, List.flatMap])
    [2] rfl 0
    (by norm_num [L1, List.zip, List.zipWith])
  exact ⟨h.1, h.2.trans (by norm_num)⟩

/-- C10: L1_loss and MSE_loss are deterministic pure functions of their arguments:
identical inputs always give identical results. -/
theorem C10_losses_deterministic
    (inp target : Tensor) (params : Option Params)
    (inp2 target2 : Tensor) (params2 : Option Params)
    (h1 : inp = inp2) (h2 : target = target2) (h3 : params = params2) :
    L1_loss inp target params = L1_loss inp2 target2 params2
      ∧ MSE_loss inp target params = MSE_loss inp2 target2 params2 := by
  subst h1
  subst h2
  subst h3
  exact ⟨rfl, rfl⟩

/-- C10 witness: a concrete pair of equal invocations. -/
theorem C10_witness :
    L1_loss (Tensor.mk [1] [0]) (Tensor.mk [1] [0]) Option.none
        = L1_loss (Tensor.mk [1] [0]) (Tensor.mk [1] [0]) Option.none
      ∧ MSE_loss (Tensor.mk [1] [0]) (Tensor.mk [1] [0]) Option.none
        = MSE_loss (Tensor.mk [1] [0]) (Tensor.mk [1] [0]) Option.none :=
  C10_losses_deterministic (Tensor.mk [1] [0]) (Tensor.mk [1] [0]) Option.none
    (Tensor.mk [1] [0]) (Tensor.mk [1] [0]) Option.none rfl rfl rfl

end GaNDLF
